import Mathlib

/-!
Verification development for the Gpay-Remit backend.

The Go sources are shallowly embedded: pure functions become Lean functions,
Go's `(value, error)` returns become pairs with an `Option String` error
component or `Except`, and the opaque pieces of the Stellar SDK and of the
ed25519 cryptography that the repository calls (strkey address validation,
secret-seed parsing, hash signing, XDR encoding and decoding, Horizon network
I/O) are supplied as explicit environments, so every repository function is a
total computable function of its inputs and of that environment.
-/

namespace GpayRemit

/-- Equality on `Except` results is decidable when it is on both components;
used to evaluate the embedded functions on closed inputs. -/
instance {ε α : Type _} [DecidableEq ε] [DecidableEq α] :
    DecidableEq (Except ε α) := fun a b =>
  match a, b with
  | .error e, .error f =>
    if h : e = f then .isTrue (congrArg Except.error h)
    else .isFalse (fun hc => h (Except.error.inj hc))
  | .ok x, .ok y =>
    if h : x = y then .isTrue (congrArg Except.ok h)
    else .isFalse (fun hc => h (Except.ok.inj hc))
  | .error _, .ok _ => .isFalse (fun hc => Except.noConfusion hc)
  | .ok _, .error _ => .isFalse (fun hc => Except.noConfusion hc)

/-- Model of `txnbuild.Asset`: the native lumen asset or a credit (issued)
asset identified by code and issuer address. -/
inductive Asset
  | native
  | credit (code : String) (issuer : String)
deriving DecidableEq, Repr

/-- Model of the `txnbuild.Payment` operation: destination address, decimal
amount string, and asset. -/
structure Payment where
  destination : String
  amount : String
  asset : Asset
deriving DecidableEq, Repr

/-- Model of a ledger account as the `txnbuild.Account` implementors
(`horizon.Account`, `txnbuild.SimpleAccount`) expose it: the address and the
stored sequence number. -/
structure Account where
  accountID : String
  sequence : Int
deriving DecidableEq, Repr

/-- Model of `txnbuild.TimeBounds`. -/
structure TimeBounds where
  minTime : Int
  maxTime : Int
deriving DecidableEq, Repr

/-- Model of `txnbuild.NewInfiniteTimeout()`: min time 0 and the
`TimeoutInfinite` (= 0) upper bound. -/
def NewInfiniteTimeout : TimeBounds := ⟨0, 0⟩

/-- Model of `txnbuild.Transaction`: the unsigned body (source address,
sequence number, fee, operations, time bounds) plus the ordered signature
list. Signatures are modelled as opaque strings. -/
structure Tx where
  sourceID : String
  seqNum : Int
  fee : Int
  operations : List Payment
  timeBounds : TimeBounds
  signatures : List String
deriving DecidableEq, Repr

/-- The unsigned body of a transaction: the part a signature covers. -/
def Tx.body (t : Tx) : Tx := { t with signatures := [] }

/-- Model of `txnbuild.GenericTransaction`, as produced by
`txnbuild.TransactionFromXDR`: either a plain transaction or a fee-bump
envelope (for which `GenericTransaction.Transaction()` reports `ok = false`). -/
inductive GenericTx
  | tx (t : Tx)
  | feeBump (inner : Tx)
deriving DecidableEq, Repr

/-- Model of an ed25519 keypair as `keypair.Full` exposes it: an opaque seed. -/
structure KeyPair where
  seed : String
deriving DecidableEq, Repr

/-- Opaque parts of the Stellar SDK and of the ed25519 cryptography that the
repository calls but does not define. `signHash` takes the network passphrase,
the unsigned transaction body and the keypair, mirroring how
`Transaction.Sign` hashes (network id, body) and signs the digest. `txFromXDR`
and `base64` are the XDR envelope codec. `parseAmount` is the SDK amount
parser `amount.ParseInt64`: it accepts every notation `big.Rat.SetString`
does (plain decimals, exponents, fractions, base prefixes) whose value times
10^7 is an integer in the signed 64-bit range, and returns that stroop value
— which may be zero or negative; it performs no positivity check. -/
structure Sdk where
  isValidAddress : String → Bool
  parseFull : String → Except String KeyPair
  address : KeyPair → String
  signHash : String → Tx → KeyPair → Except String String
  txFromXDR : String → Except String GenericTx
  base64 : Tx → Except String String
  parseAmount : String → Option Int

/-- Model of `txnbuild.Transaction.Sign`: compute the signature of the
transaction hash for the given network passphrase and append it to the
signature list. -/
def Tx.sign (sdk : Sdk) (net : String) (kp : KeyPair) (t : Tx) : Except String Tx :=
  match sdk.signHash net t.body kp with
  | .error e => .error e
  | .ok sig => .ok { t with signatures := t.signatures ++ [sig] }

/-! ### Amount validation

The `txnbuild` payment amount check (`validateAmount`) parses the string with
the SDK amount parser and rejects only a failed parse or a negative value —
zero passes. The parser itself is opaque (a field of `Sdk`); a concrete
plain-decimal parser is defined below for the witness environments, agreeing
with the SDK parser on plain decimal strings. -/

/-- Model of the `txnbuild` amount validation (`validateAmount` as
`Payment.Validate` invokes it): the string must parse, and the parsed stroop
value must not be negative. Zero is accepted — the source has no positivity
check. -/
def validateAmount (sdk : Sdk) (s : String) : Bool :=
  match sdk.parseAmount s with
  | some v => decide (0 ≤ v)
  | none => false

/-- Numeric value of a digit list, most significant digit first. -/
def digitsVal (l : List Char) : Nat :=
  l.foldl (fun a c => a * 10 + (c.toNat - 48)) 0

/-- Split a character list at the first dot: the whole part, and the
fractional part when a dot is present. -/
def splitFrac : List Char → List Char × Option (List Char)
  | [] => ([], none)
  | c :: rest =>
    if c = '.' then ([], some rest)
    else
      let (w, f) := splitFrac rest
      (c :: w, f)

/-- Concrete amount parser used by the witness environments as their
`Sdk.parseAmount`: plain decimal notation — optional sign, digits, an
optional dot with at most 7 fractional digits — yielding the value in
stroops (1 unit = 10^7 stroops) when it lies in the signed 64-bit range. On
such strings it agrees with the SDK parser; the notations only
`big.Rat.SetString` accepts (exponents, fractions, base prefixes) are outside
its domain, which is why the theorems quantify over the opaque parser
instead. -/
def parseStroops (s : String) : Option Int :=
  let signBody : Int × List Char :=
    match s.data with
    | '-' :: r => (-1, r)
    | '+' :: r => (1, r)
    | r => (1, r)
  let (whole, fracPart) := splitFrac signBody.2
  let frac := fracPart.getD []
  if whole.all Char.isDigit && frac.all Char.isDigit &&
      decide (0 < whole.length + frac.length) && decide (frac.length ≤ 7) then
    let v : Int :=
      signBody.1 * ((digitsVal whole) * 10 ^ 7 + (digitsVal frac) * 10 ^ (7 - frac.length))
    if -9223372036854775808 ≤ v ∧ v ≤ 9223372036854775807 then some v else none
  else none

example : parseStroops "1" = some 10000000 := by decide
example : parseStroops "100.50" = some 1005000000 := by decide
example : parseStroops "0.12345678" = none := by decide
example : parseStroops "-10" = some (-100000000) := by decide
example : parseStroops "0" = some 0 := by decide
example : parseStroops "abc" = none := by decide
example : parseStroops "0.0000001" = some 1 := by decide

/-! ### Transaction building

Model of `txnbuild.NewTransaction` and its operation validation, as the
repository invokes it (single payment operation, minimum base fee, infinite
timeout, `IncrementSequenceNum: true`). -/

/-- Model of `txnbuild.MinBaseFee` (100 stroops). -/
def MinBaseFee : Int := 100

/-- The distinguishable validation failures of a payment operation
(`txnbuild.Payment.Validate` reports the offending field in its error). -/
inductive OpError
  | invalidDest
  | invalidAsset
  | invalidAmount
deriving DecidableEq, Repr

/-- Model of the `txnbuild` asset validation (`validateStellarAsset`): the
native asset is always valid; a credit asset needs a 1–12 character
alphanumeric code and a valid issuer address. -/
def validAsset (sdk : Sdk) : Asset → Bool
  | .native => true
  | .credit code issuer =>
      decide (1 ≤ code.length) && decide (code.length ≤ 12) &&
        code.data.all Char.isAlphanum && sdk.isValidAddress issuer

/-- Model of `txnbuild.Payment.Validate`: the destination address, the asset,
then the amount are checked. -/
def Payment.validate (sdk : Sdk) (p : Payment) : Option OpError :=
  if !sdk.isValidAddress p.destination then some .invalidDest
  else if !validAsset sdk p.asset then some .invalidAsset
  else if !validateAmount sdk p.amount then some .invalidAmount
  else none

/-- First validation failure among a list of operations, if any. -/
def validateOps (sdk : Sdk) : List Payment → Option OpError
  | [] => none
  | p :: rest =>
    match Payment.validate sdk p with
    | some e => some e
    | none => validateOps sdk rest

/-- The distinguishable failures of `txnbuild.NewTransaction` as the
repository can hit them. -/
inductive BuildError
  | negativeSeq
  | opError (e : OpError)
  | feeTooLow
deriving DecidableEq, Repr

/-- Rendered message of a build failure, standing in for the Go error text. -/
def buildErrorMessage : BuildError → String
  | .negativeSeq => "sequence cannot be negative"
  | .opError .invalidDest => "validation error: Field: Destination"
  | .opError .invalidAsset => "validation error: Field: Asset"
  | .opError .invalidAmount => "validation error: Field: Amount"
  | .feeTooLow => "base fee cannot be lower than network minimum"

/-- Model of `txnbuild.TransactionParams` as the repository fills it. -/
structure TransactionParams where
  sourceAccount : Account
  incrementSequenceNum : Bool
  baseFee : Int
  timeBounds : TimeBounds
  operations : List Payment
deriving DecidableEq, Repr

/-- Model of `txnbuild.NewTransaction`. When `incrementSequenceNum` is set the
source account's stored sequence number is incremented up front — mutating
the caller's account, which is returned as the first component — then the
sequence is checked non-negative, the operations are validated, the base fee
is checked against the network minimum, and the transaction fee is the base
fee times the operation count. -/
def NewTransaction (sdk : Sdk) (p : TransactionParams) :
    Account × Except BuildError Tx :=
  let seq : Int :=
    if p.incrementSequenceNum then p.sourceAccount.sequence + 1
    else p.sourceAccount.sequence
  let acc : Account := { p.sourceAccount with sequence := seq }
  (acc,
    if seq < 0 then .error .negativeSeq
    else
      match validateOps sdk p.operations with
      | some e => .error (.opError e)
      | none =>
        if p.baseFee < MinBaseFee then .error .feeTooLow
        else .ok {
          sourceID := acc.accountID
          seqNum := seq
          fee := p.baseFee * p.operations.length
          operations := p.operations
          timeBounds := p.timeBounds
          signatures := [] })

/-! ### The repository's transaction builders -/

/-- Model of Go `strings.ToUpper` on the ASCII codes the repository compares
against. -/
def goToUpper (s : String) : String :=
  (s.data.map Char.toUpper).asString

/-- Character-level split at spaces, keeping empty fields, as Go
`strings.Split(s, " ")` produces them. -/
def splitSpaceChars : List Char → List (List Char)
  | [] => [[]]
  | c :: rest =>
    let r := splitSpaceChars rest
    if c = ' ' then [] :: r
    else
      match r with
      | [] => [[c]]
      | w :: ws => (c :: w) :: ws

/-- Model of Go `strings.Split(s, " ")`. -/
def goSplitSpace (s : String) : List String :=
  (splitSpaceChars s.data).map List.asString

example : goSplitSpace "Bearer tok" = ["Bearer", "tok"] := by decide
example : goSplitSpace "" = [""] := by decide
example : goSplitSpace "a  b" = ["a", "", "b"] := by decide

/-- Model of the asset selection inlined in `BuildPaymentTx`
(src/unnamed/part_000 lines 73–78): the code "XLM" compared case-insensitively,
or the empty code, selects the native asset; anything else yields a credit
asset with the given issuer, even when the issuer is empty. -/
def buildPaymentAsset (assetCode issuer : String) : Asset :=
  if goToUpper assetCode = "XLM" || assetCode = "" then .native
  else .credit assetCode issuer

/-- Model of the asset selection inlined in `SubmitPayment` and
`BuildEscrowTx` (src/backend/utils/stellar_utils.go lines 37–42 and 168–173):
only the exact code "XLM" selects the native asset; anything else yields a
credit asset with the given issuer, even when the issuer is empty. -/
def submitPaymentAsset (assetCode issuer : String) : Asset :=
  if assetCode = "XLM" then .native else .credit assetCode issuer

/-- Model of `StellarClient.BuildPaymentTx` (src/unnamed/part_000 lines
72–100): build an unsigned transaction holding exactly one payment operation,
with the minimum base fee, an infinite timeout, and
`IncrementSequenceNum: true`. The possibly-mutated source account is returned
alongside the result; the Go error wrapping ("failed to build payment
transaction: ...") keeps the build error distinguishable and is modelled by
the `BuildError` value itself. -/
def BuildPaymentTx (sdk : Sdk) (sourceAccount : Account)
    (destination assetCode issuer amount : String) :
    Account × Except BuildError Tx :=
  NewTransaction sdk {
    sourceAccount := sourceAccount
    incrementSequenceNum := true
    baseFee := MinBaseFee
    timeBounds := NewInfiniteTimeout
    operations := [{ destination := destination, amount := amount,
                     asset := buildPaymentAsset assetCode issuer }] }

/-! ### Signing -/

/-- Model of the package-level `SignTx` (src/unnamed/part_000 lines 30–64):
parse the envelope XDR, require a plain (non-fee-bump) transaction, parse the
secret key, sign for the given network passphrase, and re-encode. The result
mirrors Go's `(string, error)` pair: the second component is `none` on
success and the error message on failure. On every failure path the function
returns the original `envelopeXDR` unchanged. The key-masking log line has no
effect on the result and is not modelled. -/
def SignTx (sdk : Sdk) (envelopeXDR secretKey networkPassphrase : String) :
    String × Option String :=
  match sdk.txFromXDR envelopeXDR with
  | .error e => (envelopeXDR, some ("failed to parse envelope XDR: " ++ e))
  | .ok (.feeBump _) => (envelopeXDR, some "XDR is not a transaction envelope")
  | .ok (.tx tx) =>
    match sdk.parseFull secretKey with
    | .error e => (envelopeXDR, some ("invalid secret key: " ++ e))
    | .ok kp =>
      match Tx.sign sdk networkPassphrase kp tx with
      | .error e => (envelopeXDR, some ("failed to sign transaction: " ++ e))
      | .ok signedTx =>
        match sdk.base64 signedTx with
        | .error e => (envelopeXDR, some ("failed to encode signed transaction: " ++ e))
        | .ok signedXDR => (signedXDR, none)

/-! ### Horizon client and submission -/

/-- A failed Horizon submission or lookup as the repository can observe it
through the returned Go error: the kind (which Go exposes only through the
error's dynamic type, never inspected by this repository) and the rendered
message. -/
inductive HorizonFailure
  | transport (message : String)
  | rejection (resultCode : String) (message : String)
deriving DecidableEq, Repr

/-- The rendered `err.Error()` message of a Horizon failure. -/
def HorizonFailure.message : HorizonFailure → String
  | .transport m => m
  | .rejection _ m => m

/-- Outcome of `horizonclient.Client.SubmitTransaction`. -/
inductive SubmitOutcome
  | ok (hash : String)
  | failed (f : HorizonFailure)
deriving DecidableEq, Repr

/-- Opaque behaviour of the wrapped `horizonclient.Client`: account lookup
and transaction submission. -/
structure Horizon where
  accountDetail : String → Except String Account
  submitTransaction : Tx → SubmitOutcome

/-- Model of `StellarClient` (src/backend/utils/stellar_utils.go lines
12–15): the wrapped Horizon client and the configured network passphrase. -/
structure StellarClient where
  horizon : Horizon
  networkPassphrase : String

/-- The hard-coded `network.TestNetworkPassphrase` constant of the Stellar
SDK. -/
def TestNetworkPassphrase : String := "Test SDF Network ; September 2015"

/-- Model of `StellarClient.SubmitPayment` (src/backend/utils/stellar_utils.go
lines 24–74): parse the source secret, fetch the source account from Horizon,
build a one-payment transaction, sign it — with the hard-coded
`network.TestNetworkPassphrase`, not the client's configured passphrase — and
submit it. Mirrors Go's `(string, error)` pair; every failure is wrapped into
a fixed-text message with the underlying rendered error appended. -/
def SubmitPaymentUtils (sdk : Sdk) (s : StellarClient)
    (sourceSecret destination assetCode issuer amount : String) :
    String × Option String :=
  match sdk.parseFull sourceSecret with
  | .error e => ("", some ("invalid source secret: " ++ e))
  | .ok sourceKP =>
    match s.horizon.accountDetail (sdk.address sourceKP) with
    | .error e => ("", some ("failed to load source account: " ++ e))
    | .ok sourceAccount =>
      match (NewTransaction sdk {
          sourceAccount := sourceAccount
          incrementSequenceNum := true
          baseFee := MinBaseFee
          timeBounds := NewInfiniteTimeout
          operations := [{ destination := destination, amount := amount,
                           asset := submitPaymentAsset assetCode issuer }] }).2 with
      | .error e => ("", some ("failed to build transaction: " ++ buildErrorMessage e))
      | .ok tx =>
        match Tx.sign sdk TestNetworkPassphrase sourceKP tx with
        | .error e => ("", some ("failed to sign transaction: " ++ e))
        | .ok signedTx =>
          match s.horizon.submitTransaction signedTx with
          | .failed f => ("", some ("failed to submit transaction: " ++ f.message))
          | .ok hash => (hash, none)

/-- Model of `StellarClient.BuildEscrowTx` (src/backend/utils/stellar_utils.go
lines 163–206): load the sender account from Horizon, build a single-payment
transaction to the recipient (the source's placeholder for an escrow
envelope), and return its base64 XDR. -/
def BuildEscrowTx (sdk : Sdk) (s : StellarClient)
    (sender recipient assetCode issuer amount : String) :
    String × Option String :=
  match s.horizon.accountDetail sender with
  | .error e => ("", some ("failed to load source account: " ++ e))
  | .ok sourceAccount =>
    match (NewTransaction sdk {
        sourceAccount := sourceAccount
        incrementSequenceNum := true
        baseFee := MinBaseFee
        timeBounds := NewInfiniteTimeout
        operations := [{ destination := recipient, amount := amount,
                         asset := submitPaymentAsset assetCode issuer }] }).2 with
    | .error e => ("", some ("failed to build escrow transaction: " ++ buildErrorMessage e))
    | .ok tx =>
      match sdk.base64 tx with
      | .error e => ("", some ("failed to encode transaction to XDR: " ++ e))
      | .ok xdr => (xdr, none)

/-! ### Escrow state machine

The on-ledger `EscrowStateMachine` of spec section 4.5 has no implementation
in the repository source: `BuildEscrowTx` builds a plain placeholder payment
transaction instead, as its own comment states. The machine is therefore
modelled below from the spec's words. -/

/-- Modelled from the spec: the escrow status set of section 3, for the
`EscrowStateMachine` missing from the repository source. -/
inductive EscrowStatus
  | created
  | funded
  | partiallyReleased
  | released
  | partiallyRefunded
  | refunded
deriving DecidableEq, Repr

/-- Modelled from the spec: the escrow record of section 3 (identifier,
parties, asset and conditions carried opaquely; the amounts drive the state
machine), for the `EscrowStateMachine` missing from the repository source. -/
structure Escrow where
  sender : String
  recipient : String
  asset : Asset
  conditions : String
  total : Nat
  funded : Nat
  released : Nat
  refunded : Nat
  status : EscrowStatus
deriving DecidableEq, Repr

/-- Modelled from the spec: the escrow error taxonomy entries of section 7
reachable from the state machine, for the `EscrowStateMachine` missing from
the repository source. -/
inductive EscrowError
  | invalidAmount
  | overFunded
  | insufficientFunds
  | escrowClosed
  | contractPaused
  | unauthorized
  | invalidState
  | conditionsNotMet
deriving DecidableEq, Repr

/-- Modelled from the spec: `create_escrow` of section 4.5 — requires a
positive amount and creates the escrow in state `Created`, for the
`EscrowStateMachine` missing from the repository source. -/
def createEscrow (sender recipient : String) (asset : Asset)
    (conditions : String) (amount : Nat) : Except EscrowError Escrow :=
  if amount = 0 then .error .invalidAmount
  else .ok {
    sender := sender, recipient := recipient, asset := asset
    conditions := conditions, total := amount
    funded := 0, released := 0, refunded := 0, status := .created }

/-- Modelled from the spec: an escrow is terminal once fully released, or
fully refunded with no remaining balance (section 4.5), for the
`EscrowStateMachine` missing from the repository source. -/
def Escrow.isTerminal (e : Escrow) : Bool :=
  e.status = EscrowStatus.released ||
    (e.status = EscrowStatus.refunded && e.released + e.refunded == e.funded)

/-- Modelled from the spec: `deposit` of section 4.5 — guarded by the pause
flag and the terminal check, requires state Created or Funded, adds to the
funded amount, fails `OverFunded` past the total, and moves to `Funded` once
funded equals total; for the `EscrowStateMachine` missing from the
repository source. -/
def Escrow.deposit (paused : Bool) (e : Escrow) (amount : Nat) :
    Except EscrowError Escrow :=
  if paused then .error .contractPaused
  else if e.isTerminal then .error .escrowClosed
  else if e.status ≠ EscrowStatus.created ∧ e.status ≠ EscrowStatus.funded then
    .error .invalidState
  else if e.total < e.funded + amount then .error .overFunded
  else .ok { e with
    funded := e.funded + amount
    status := if e.funded + amount = e.total then .funded else e.status }

/-- Modelled from the spec: `release_partial` (and `release_escrow` as the
full-remainder case) of section 4.5 — guarded by the pause flag, the caller's
authorization, the release conditions and the terminal check, requires state
Funded or PartiallyReleased, fails `InsufficientFunds` when released plus
refunded would exceed funded, and moves to `PartiallyReleased` or `Released`;
for the `EscrowStateMachine` missing from the repository source. -/
def Escrow.release (paused authorized conditionsMet : Bool) (e : Escrow)
    (amount : Nat) : Except EscrowError Escrow :=
  if paused then .error .contractPaused
  else if !authorized then .error .unauthorized
  else if !conditionsMet then .error .conditionsNotMet
  else if e.isTerminal then .error .escrowClosed
  else if e.status ≠ EscrowStatus.funded ∧
      e.status ≠ EscrowStatus.partiallyReleased then .error .invalidState
  else if e.funded < e.released + e.refunded + amount then
    .error .insufficientFunds
  else .ok { e with
    released := e.released + amount
    status :=
      if e.released + amount = e.funded then .released else .partiallyReleased }

/-- Modelled from the spec: `refund_partial` (and `refund_escrow` as the
full-remainder case) of section 4.5, symmetric to release but moving funds
back to the sender; for the `EscrowStateMachine` missing from the repository
source. -/
def Escrow.refund (paused authorized : Bool) (e : Escrow) (amount : Nat) :
    Except EscrowError Escrow :=
  if paused then .error .contractPaused
  else if !authorized then .error .unauthorized
  else if e.isTerminal then .error .escrowClosed
  else if e.status ≠ EscrowStatus.funded ∧
      e.status ≠ EscrowStatus.partiallyRefunded ∧
      e.status ≠ EscrowStatus.partiallyReleased then .error .invalidState
  else if e.funded < e.released + e.refunded + amount then
    .error .insufficientFunds
  else .ok { e with
    refunded := e.refunded + amount
    status :=
      if e.released + (e.refunded + amount) = e.funded then .refunded
      else .partiallyRefunded }

/-- Modelled from the spec: one call against an escrow, tagged with the
caller's authorization and condition status; for the `EscrowStateMachine`
missing from the repository source. -/
inductive EscrowOp
  | deposit (amount : Nat)
  | release (authorized conditionsMet : Bool) (amount : Nat)
  | refund (authorized : Bool) (amount : Nat)
deriving DecidableEq, Repr

/-- Modelled from the spec: apply one call; a failed call leaves the escrow
unchanged; for the `EscrowStateMachine` missing from the repository source. -/
def escrowStep (paused : Bool) (e : Escrow) : EscrowOp → Escrow
  | .deposit amount =>
    match e.deposit paused amount with
    | .ok e' => e'
    | .error _ => e
  | .release authorized conditionsMet amount =>
    match e.release paused authorized conditionsMet amount with
    | .ok e' => e'
    | .error _ => e
  | .refund authorized amount =>
    match e.refund paused authorized amount with
    | .ok e' => e'
    | .error _ => e

/-- Modelled from the spec: apply a finite sequence of calls in order; for
the `EscrowStateMachine` missing from the repository source. -/
def runEscrow (paused : Bool) (e : Escrow) : List EscrowOp → Escrow
  | [] => e
  | op :: rest => runEscrow paused (escrowStep paused e op) rest

/-- The escrow conservation invariant of spec sections 3 and 8:
funded never exceeds total, and released plus refunded never exceed funded. -/
def EscrowInv (e : Escrow) : Prop :=
  e.funded ≤ e.total ∧ e.released + e.refunded ≤ e.funded

instance (e : Escrow) : Decidable (EscrowInv e) := by
  unfold EscrowInv; infer_instance

/-! ### The CreateRemittance handler

Model of `RemittanceHandler.CreateRemittance` (src/unnamed/part_002 lines
305–371). The gin context, the gorm database and the Stellar client are
modelled explicitly: the database is the list of stored payment records, and
the handler's collaborators are an environment of outcome functions. The
request is taken already JSON-bound (a binding failure returns 400 before any
of the modelled steps and touches no state). Go `float64` request amounts are
carried as opaque tokens that the handler never computes with; `%.7f`
formatting is an environment function of that token. -/

/-- Model of `models.Payment` as `CreateRemittance` fills it. -/
structure PaymentRec where
  senderID : Nat
  senderAccount : String
  recipientAccount : String
  amount : Nat
  currency : String
  status : String
  conditions : String
  notes : String
deriving DecidableEq, Repr

/-- Model of `CreateRemittanceRequest` (src/unnamed/part_002 lines 261–269);
`conditions` stands for the JSON-marshalled conditions map. -/
structure CreateRemittanceRequest where
  senderAccount : String
  recipientAccount : String
  amount : Nat
  assetCode : String
  assetIssuer : String
  conditions : String
  notes : String
deriving DecidableEq, Repr

/-- The HTTP responses `CreateRemittance` can write. -/
inductive Resp
  | badRequest (msg : String)
  | unauthorized
  | serverError (msg : String)
  | created (remittanceId : Nat) (status : String) (txEnvelope : String)
deriving DecidableEq, Repr

/-- The handler's collaborators: the Stellar client interface outcomes
(`ValidateAccount`, `BuildEscrowTx` — mocked exactly this way in the
repository's own handler tests), the gorm insert outcome, the JWT
middleware's `userID` context entry, and `%.7f` formatting of the opaque
float token. -/
structure HandlerCtx where
  validateAccount : String → Option String
  dbCreateFails : Bool
  buildEscrowXDR : String → String → String → String → String → Except String String
  userID : Option Nat
  sprint7 : Nat → String

/-- Model of `RemittanceHandler.CreateRemittance` (src/unnamed/part_002 lines
305–371): validate both Stellar accounts, read the middleware's `userID`,
insert the payment mirror record with status "pending", then build the escrow
transaction envelope; a build failure returns a 500 response but performs no
rollback of the inserted record. Returns the final database alongside the
response. -/
def CreateRemittance (ctx : HandlerCtx) (db : List PaymentRec)
    (req : CreateRemittanceRequest) : List PaymentRec × Resp :=
  match ctx.validateAccount req.senderAccount with
  | some e => (db, .badRequest ("Invalid sender account: " ++ e))
  | none =>
  match ctx.validateAccount req.recipientAccount with
  | some e => (db, .badRequest ("Invalid recipient account: " ++ e))
  | none =>
  match ctx.userID with
  | none => (db, .unauthorized)
  | some uid =>
    let payment : PaymentRec := {
      senderID := uid
      senderAccount := req.senderAccount
      recipientAccount := req.recipientAccount
      amount := req.amount
      currency := req.assetCode
      status := "pending"
      conditions := req.conditions
      notes := req.notes }
    if ctx.dbCreateFails then (db, .serverError "Failed to create remittance record")
    else
      let db' := db ++ [payment]
      match ctx.buildEscrowXDR req.senderAccount req.recipientAccount
          req.assetCode req.assetIssuer (ctx.sprint7 req.amount) with
      | .error e =>
          (db', .serverError ("Failed to build Stellar transaction: " ++ e))
      | .ok xdr => (db', .created db.length payment.status xdr)

/-! ### The JWT authentication middleware

Model of `JwtAuthMiddleware` (src/backend/middleware/auth.go lines 37–87)
over golang-jwt v5. A presented token is modelled by its decoded structure:
the declared signing method (HMAC or not), whether its signature verifies
under the configured `cfg.JWTSecret`, whether it is expired, and its claims.
`jwt.ParseWithClaims` with the middleware's keyfunc follows the v5 parser
order: the keyfunc runs first (and rejects any non-HMAC method before any
signature or claims check), then the signature is verified, then the claims
(expiry) are validated. -/

/-- A decoded JWT as the middleware's collaborating library sees it. -/
structure TokenDesc where
  methodIsHMAC : Bool
  sigValid : Bool
  expired : Bool
  userID : Nat
  role : String
deriving DecidableEq, Repr

/-- The golang-jwt v5 error classes the middleware distinguishes. -/
inductive JwtError
  | malformed
  | unverifiable
  | signatureInvalid
  | expired
deriving DecidableEq, Repr

/-- Model of `jwt.ParseWithClaims` with the middleware's keyfunc (auth.go
lines 57–63): a non-HMAC signing method makes the keyfunc fail, which the v5
parser reports as an unverifiable-token error before verifying the signature
or validating the claims. -/
def parseWithClaims (t : TokenDesc) : Except JwtError TokenDesc :=
  if !t.methodIsHMAC then .error .unverifiable
  else if !t.sigValid then .error .signatureInvalid
  else if t.expired then .error .expired
  else .ok t

/-- What the middleware does with a request: abort with an HTTP status and
optional error code, or set `userID` and `role` in the context and pass the
request on. -/
inductive MwResult
  | abort (status : Nat) (code : Option String)
  | proceed (userID : Nat) (role : String)
deriving DecidableEq, Repr

/-- Model of `JwtAuthMiddleware` (auth.go lines 37–87). `tokens` decodes a
compact JWT string into its structure (`none` for a malformed token, which
the parser rejects). The `!token.Valid` re-check after a nil error is
unreachable in v5 (a nil parse error implies a valid token) and is absorbed
into the success branch. -/
def JwtAuthMiddleware (tokens : String → Option TokenDesc)
    (authHeader : String) : MwResult :=
  if authHeader = "" then .abort 401 none
  else
    match goSplitSpace authHeader with
    | [p0, tokenString] =>
      if p0 ≠ "Bearer" then .abort 401 none
      else
        match tokens tokenString with
        | none => .abort 401 (some "InvalidToken")
        | some t =>
          match parseWithClaims t with
          | .error .expired => .abort 401 (some "ExpiredToken")
          | .error _ => .abort 401 (some "InvalidToken")
          | .ok t' => .proceed t'.userID t'.role
    | _ => .abort 401 none

/-! ### Concrete environments

Concrete instantiations of the opaque SDK, Horizon and handler environments,
used by the witnesses below to evaluate the embedded functions on closed
inputs. -/

/-- A sample unsigned transaction for the concrete XDR codec. -/
def txA : Tx := {
  sourceID := "GA", seqNum := 1, fee := 100, operations := []
  timeBounds := ⟨0, 0⟩, signatures := [] }

/-- `txA` carrying one signature. -/
def txA1 : Tx := { txA with signatures := ["sigA"] }

/-- A concrete SDK environment: addresses start with G, seeds with S, signing
always yields the signature "sigA", and the XDR codec recognises exactly the
two strings "XDR0" and "XDR1". -/
def sdkW : Sdk := {
  isValidAddress := fun a =>
    match a.data with
    | 'G' :: _ => true
    | _ => false
  parseFull := fun s =>
    match s.data with
    | 'S' :: _ => .ok ⟨s⟩
    | _ => .error "base32 decode failed"
  address := fun kp => "G" ++ kp.seed
  signHash := fun _ _ _ => .ok "sigA"
  txFromXDR := fun s =>
    if s = "XDR0" then .ok (.tx txA)
    else if s = "XDR1" then .ok (.tx txA1)
    else .error "unknown envelope type"
  base64 := fun t => if t = txA1 then .ok "XDR1" else .error "xdr marshal failed"
  parseAmount := parseStroops }

example : (SignTx sdkW "XDR0" "Sseed" "net").1 = "XDR1" := by decide
example : (SignTx sdkW "XDR0" "Sseed" "net").2 = none := by decide
example : (SignTx sdkW "garbage" "Sseed" "net").1 = "garbage" := by decide

/-! ### C1 — SignTx failure contract -/

/-- C1: for every envelope XDR string, secret key and network passphrase
(over any SDK environment whose XDR codec round-trips), if `SignTx` returns
an error then the XDR string it returns is exactly the input XDR; and if it
succeeds, the returned XDR differs from the input and decodes to a
transaction whose signature list is the input's signature list with exactly
one signature appended. -/
theorem signTx_failure_unchanged_success_appends (sdk : Sdk)
    (env secret net : String)
    (hrt : ∀ t s, sdk.base64 t = .ok s → sdk.txFromXDR s = .ok (.tx t)) :
    (∀ e, (SignTx sdk env secret net).2 = some e →
      (SignTx sdk env secret net).1 = env) ∧
    ((SignTx sdk env secret net).2 = none →
      (SignTx sdk env secret net).1 ≠ env ∧
      ∃ t0 sig, sdk.txFromXDR env = .ok (.tx t0) ∧
        sdk.txFromXDR (SignTx sdk env secret net).1 =
          .ok (.tx { t0 with signatures := t0.signatures ++ [sig] })) := by
  rcases hx : sdk.txFromXDR env with e | g
  · refine ⟨fun e' _ => by simp [SignTx, hx], fun h => ?_⟩
    simp [SignTx, hx] at h
  rcases g with t0 | fb
  case feeBump =>
    refine ⟨fun e' _ => by simp [SignTx, hx], fun h => ?_⟩
    simp [SignTx, hx] at h
  case tx =>
    rcases hp : sdk.parseFull secret with e | kp
    · refine ⟨fun e' _ => by simp [SignTx, hx, hp], fun h => ?_⟩
      simp [SignTx, hx, hp] at h
    rcases hsg : sdk.signHash net t0.body kp with e | sig
    · have hsn : Tx.sign sdk net kp t0 = .error e := by
        simp [Tx.sign, hsg]
      refine ⟨fun e' _ => by simp [SignTx, hx, hp, hsn], fun h => ?_⟩
      simp [SignTx, hx, hp, hsn] at h
    have hsn : Tx.sign sdk net kp t0 =
        .ok { t0 with signatures := t0.signatures ++ [sig] } := by
      simp [Tx.sign, hsg]
    rcases hb : sdk.base64 { t0 with signatures := t0.signatures ++ [sig] }
        with e | out
    · refine ⟨fun e' _ => by simp [SignTx, hx, hp, hsn, hb], fun h => ?_⟩
      simp [SignTx, hx, hp, hsn, hb] at h
    have hrun : SignTx sdk env secret net = (out, none) := by
      simp [SignTx, hx, hp, hsn, hb]
    have hdec : sdk.txFromXDR out =
        .ok (.tx { t0 with signatures := t0.signatures ++ [sig] }) := hrt _ _ hb
    refine ⟨fun e' he => ?_, fun _ => ⟨?_, t0, sig, rfl, by rw [hrun]; exact hdec⟩⟩
    · rw [hrun] at he
      simp at he
    · rw [hrun]
      intro hout
      have hout2 : out = env := hout
      rw [hout2, hx] at hdec
      have heq : t0 = { t0 with signatures := t0.signatures ++ [sig] } := by
        injection hdec with h1
        injection h1
      have hlen := congrArg (fun t => t.signatures.length) heq
      simp at hlen

/-- Witness for C1: a concrete run of `SignTx` over the concrete SDK
environment that succeeds and changes the envelope. -/
theorem signTx_failure_unchanged_success_appends_witness :
    (SignTx sdkW "XDR0" "Sseed" "net").2 = none ∧
    (SignTx sdkW "XDR0" "Sseed" "net").1 ≠ "XDR0" := by
  have hrt : ∀ t s, sdkW.base64 t = .ok s → sdkW.txFromXDR s = .ok (.tx t) := by
    intro t s hbs
    by_cases ht : t = txA1
    · subst ht
      simp [sdkW] at hbs
      subst hbs
      decide

    · simp [sdkW, ht] at hbs
  have h := signTx_failure_unchanged_success_appends sdkW "XDR0" "Sseed" "net" hrt
  exact ⟨by decide, (h.2 (by decide)).1⟩

/-! ### C6 — sequence number mutation -/

/-- C6 counterexample: building a payment transaction from an account whose
stored sequence number is 5 leaves the caller's account holding sequence 6 —
`BuildPaymentTx` passes `IncrementSequenceNum: true`, whose SDK semantics
increment the caller-supplied account — refuting the claim that the stored
sequence number is unchanged. -/
theorem buildPaymentTx_sequence_mutated_cx :
    ((BuildPaymentTx sdkW { accountID := "GSRC", sequence := 5 }
        "GDEST" "XLM" "" "1").1).sequence = 6 ∧ (6 : Int) ≠ 5 := by
  exact ⟨by decide, by decide⟩

/-- C6 amended: `BuildPaymentTx` always increments the caller-supplied source
account's stored sequence number by exactly one (even when the build then
fails validation), because it builds with `IncrementSequenceNum: true`; the
built transaction carries the incremented value. -/
theorem buildPaymentTx_increments_sequence (sdk : Sdk) (acc : Account)
    (destination assetCode issuer amount : String) :
    (BuildPaymentTx sdk acc destination assetCode issuer amount).1 =
      { acc with sequence := acc.sequence + 1 } := rfl

/-! ### C2 — network passphrase binding in SubmitPayment -/

/-- The public-network passphrase constant of the Stellar SDK. -/
def PublicNetworkPassphrase : String :=
  "Public Global Stellar Network ; September 2015"

/-- A concrete SDK environment whose signing function returns the network
passphrase it was asked to sign for, so a produced signature reveals which
network it is bound to. -/
def sdkReveal : Sdk := {
  isValidAddress := fun a =>
    match a.data with
    | 'G' :: _ => true
    | _ => false
  parseFull := fun s =>
    match s.data with
    | 'S' :: _ => .ok ⟨s⟩
    | _ => .error "base32 decode failed"
  address := fun kp => "G" ++ kp.seed
  signHash := fun net _ _ => .ok net
  txFromXDR := fun _ => .error "unused"
  base64 := fun _ => .error "unused"
  parseAmount := parseStroops }

/-- A concrete Horizon environment whose submission result echoes back the
signatures of the submitted transaction. -/
def horizonEcho : Horizon := {
  accountDetail := fun a => .ok { accountID := a, sequence := 7 }
  submitTransaction := fun t => .ok (String.intercalate "," t.signatures) }

/-- A client configured for the public network. -/
def clientPublic : StellarClient :=
  { horizon := horizonEcho, networkPassphrase := PublicNetworkPassphrase }

/-- The signature-revealing SDK with an always-succeeding XDR encoder. -/
def sdkE : Sdk := { sdkReveal with base64 := fun _ => .ok "XDRE" }

/-- A client configured for the test network over the echoing Horizon. -/
def clientW : StellarClient :=
  { horizon := horizonEcho, networkPassphrase := TestNetworkPassphrase }

/-- C2: `SubmitPayment` (stellar_utils.go) does not bind its signature to the
client's configured network passphrase. First, its result is entirely
independent of the configured passphrase; second, on a client configured for
the public network, the signature it submits (echoed back by the concrete
Horizon environment, under the signature-revealing SDK) is bound to the
hard-coded `network.TestNetworkPassphrase`, which differs from the configured
passphrase. -/
theorem submitPayment_ignores_configured_passphrase :
    (∀ sdk h p p' secret dest code issuer amt,
      SubmitPaymentUtils sdk { horizon := h, networkPassphrase := p }
          secret dest code issuer amt =
        SubmitPaymentUtils sdk { horizon := h, networkPassphrase := p' }
          secret dest code issuer amt) ∧
    (SubmitPaymentUtils sdkReveal clientPublic "S1" "GDEST" "XLM" "" "1").1 =
      TestNetworkPassphrase ∧
    clientPublic.networkPassphrase ≠ TestNetworkPassphrase := by
  refine ⟨fun sdk h p p' secret dest code issuer amt => rfl, by decide, by decide⟩

/-! ### C3, C4, C5 — transaction building -/

/-- Success case of the modelled `NewTransaction`. -/
theorem newTransaction_ok_of (sdk : Sdk) (p : TransactionParams)
    (hseq : ¬ (if p.incrementSequenceNum then p.sourceAccount.sequence + 1
               else p.sourceAccount.sequence) < 0)
    (hops : validateOps sdk p.operations = none)
    (hfee : ¬ p.baseFee < MinBaseFee) :
    (NewTransaction sdk p).2 = .ok {
      sourceID := p.sourceAccount.accountID
      seqNum := if p.incrementSequenceNum then p.sourceAccount.sequence + 1
                else p.sourceAccount.sequence
      fee := p.baseFee * p.operations.length
      operations := p.operations
      timeBounds := p.timeBounds
      signatures := [] } := by
  unfold NewTransaction
  simp [hseq, hops, hfee]

/-- Operation-validation failure case of the modelled `NewTransaction`. -/
theorem newTransaction_opError_of (sdk : Sdk) (p : TransactionParams)
    (e : OpError)
    (hseq : ¬ (if p.incrementSequenceNum then p.sourceAccount.sequence + 1
               else p.sourceAccount.sequence) < 0)
    (hops : validateOps sdk p.operations = some e) :
    (NewTransaction sdk p).2 = .error (.opError e) := by
  unfold NewTransaction
  simp [hseq, hops]

/-- C3: for every source account, destination, asset code, issuer and amount
on which the build succeeds (valid destination, asset and amount, sequence in
range), `BuildPaymentTx` returns a transaction holding exactly one payment
operation whose destination, asset and amount equal the inputs exactly, with
fee equal to the network minimum base fee times the operation count (one). -/
theorem buildPaymentTx_single_payment (sdk : Sdk) (acc : Account)
    (destination assetCode issuer amount : String)
    (hd : sdk.isValidAddress destination = true)
    (ha : validAsset sdk (buildPaymentAsset assetCode issuer) = true)
    (hm : validateAmount sdk amount = true)
    (hs : ¬ acc.sequence + 1 < 0) :
    ∃ tx, (BuildPaymentTx sdk acc destination assetCode issuer amount).2 = .ok tx ∧
      tx.operations = [{ destination := destination, amount := amount,
                         asset := buildPaymentAsset assetCode issuer }] ∧
      tx.fee = MinBaseFee * 1 := by
  have hval : Payment.validate sdk
      { destination := destination, amount := amount,
        asset := buildPaymentAsset assetCode issuer } = none := by
    unfold Payment.validate
    simp [hd, ha, hm]
  have hops : validateOps sdk
      [{ destination := destination, amount := amount,
         asset := buildPaymentAsset assetCode issuer }] = none := by
    simp [validateOps, hval]
  have h := newTransaction_ok_of sdk {
    sourceAccount := acc
    incrementSequenceNum := true
    baseFee := MinBaseFee
    timeBounds := NewInfiniteTimeout
    operations := [{ destination := destination, amount := amount,
                     asset := buildPaymentAsset assetCode issuer }] }
    (by simpa using hs) hops (by simp [MinBaseFee])
  refine ⟨_, h, rfl, ?_⟩
  simp

/-- Witness for C3: a concrete successful build over the concrete SDK. -/
theorem buildPaymentTx_single_payment_witness :
    ∃ tx, (BuildPaymentTx sdkW { accountID := "GSRC", sequence := 5 }
        "GDEST" "USD" "GISS" "1.5").2 = .ok tx ∧
      tx.operations = [{ destination := "GDEST", amount := "1.5",
                         asset := buildPaymentAsset "USD" "GISS" }] ∧
      tx.fee = MinBaseFee * 1 := by
  exact buildPaymentTx_single_payment sdkW { accountID := "GSRC", sequence := 5 }
    "GDEST" "USD" "GISS" "1.5" (by decide) (by decide) (by decide) (by decide)

/-- C4 counterexample: the amount string "0" is not a positive decimal, yet
`BuildPaymentTx` does not fail with an amount error — it produces an
envelope, because the embedded `validateAmount` (as in the `txnbuild` source)
rejects only a failed parse or a negative value. This refutes the claim that
every non-positive amount string makes the builder fail with InvalidAmount
and produce no envelope. -/
theorem build_zero_amount_cx :
    sdkW.parseAmount "0" = some 0 ∧
    (∃ tx, (BuildPaymentTx sdkW { accountID := "GSRC", sequence := 5 }
        "GDEST" "USD" "GISS" "0").2 = .ok tx) := by
  refine ⟨by decide, {
    sourceID := "GSRC", seqNum := 6, fee := 100
    operations := [{ destination := "GDEST", amount := "0",
                     asset := Asset.credit "USD" "GISS" }]
    timeBounds := ⟨0, 0⟩, signatures := [] }, by decide⟩

/-- C4 amended: over any SDK environment, with the destination, asset,
sequence and Horizon lookup otherwise valid: an amount string the SDK amount
parser cannot parse, or parses to a negative stroop value, makes
`BuildPaymentTx` fail with the amount-validation error and makes
`BuildEscrowTx` return no envelope alongside the amount error; an amount
string parsing to a non-negative value — zero included, so positivity is not
enforced — never makes either builder fail on account of the amount: both
succeed. -/
theorem build_amount_validation (sdk : Sdk) (s : StellarClient)
    (acc accE : Account) (sender destination assetCode issuer amount : String)
    (hd : sdk.isValidAddress destination = true)
    (haB : validAsset sdk (buildPaymentAsset assetCode issuer) = true)
    (haE : validAsset sdk (submitPaymentAsset assetCode issuer) = true)
    (hsB : ¬ acc.sequence + 1 < 0)
    (hacc : s.horizon.accountDetail sender = .ok accE)
    (hsE : ¬ accE.sequence + 1 < 0)
    (hb64 : ∀ t, ∃ x, sdk.base64 t = .ok x) :
    (validateAmount sdk amount = false →
      (BuildPaymentTx sdk acc destination assetCode issuer amount).2 =
        .error (.opError .invalidAmount) ∧
      BuildEscrowTx sdk s sender destination assetCode issuer amount =
        ("", some ("failed to build escrow transaction: " ++
          buildErrorMessage (.opError .invalidAmount)))) ∧
    (validateAmount sdk amount = true →
      (∃ tx, (BuildPaymentTx sdk acc destination assetCode issuer amount).2 =
        .ok tx) ∧
      (∃ x, BuildEscrowTx sdk s sender destination assetCode issuer amount =
        (x, none))) := by
  constructor
  · intro hm
    have hvalB : Payment.validate sdk
        { destination := destination, amount := amount,
          asset := buildPaymentAsset assetCode issuer } = some .invalidAmount := by
      unfold Payment.validate
      simp [hd, haB, hm]
    have hvalE : Payment.validate sdk
        { destination := destination, amount := amount,
          asset := submitPaymentAsset assetCode issuer } = some .invalidAmount := by
      unfold Payment.validate
      simp [hd, haE, hm]
    have hB := newTransaction_opError_of sdk {
      sourceAccount := acc
      incrementSequenceNum := true
      baseFee := MinBaseFee
      timeBounds := NewInfiniteTimeout
      operations := [{ destination := destination, amount := amount,
                       asset := buildPaymentAsset assetCode issuer }] }
      .invalidAmount (by simpa using hsB) (by simp [validateOps, hvalB])
    have hE := newTransaction_opError_of sdk {
      sourceAccount := accE
      incrementSequenceNum := true
      baseFee := MinBaseFee
      timeBounds := NewInfiniteTimeout
      operations := [{ destination := destination, amount := amount,
                       asset := submitPaymentAsset assetCode issuer }] }
      .invalidAmount (by simpa using hsE) (by simp [validateOps, hvalE])
    refine ⟨hB, ?_⟩
    unfold BuildEscrowTx
    rw [hacc]
    simp only [hE]
  · intro hm
    have hvalB : Payment.validate sdk
        { destination := destination, amount := amount,
          asset := buildPaymentAsset assetCode issuer } = none := by
      unfold Payment.validate
      simp [hd, haB, hm]
    have hvalE : Payment.validate sdk
        { destination := destination, amount := amount,
          asset := submitPaymentAsset assetCode issuer } = none := by
      unfold Payment.validate
      simp [hd, haE, hm]
    have hB := newTransaction_ok_of sdk {
      sourceAccount := acc
      incrementSequenceNum := true
      baseFee := MinBaseFee
      timeBounds := NewInfiniteTimeout
      operations := [{ destination := destination, amount := amount,
                       asset := buildPaymentAsset assetCode issuer }] }
      (by simpa using hsB) (by simp [validateOps, hvalB]) (by simp [MinBaseFee])
    have hE := newTransaction_ok_of sdk {
      sourceAccount := accE
      incrementSequenceNum := true
      baseFee := MinBaseFee
      timeBounds := NewInfiniteTimeout
      operations := [{ destination := destination, amount := amount,
                       asset := submitPaymentAsset assetCode issuer }] }
      (by simpa using hsE) (by simp [validateOps, hvalE]) (by simp [MinBaseFee])
    refine ⟨⟨_, hB⟩, ?_⟩
    obtain ⟨x, hx⟩ := hb64 _
    refine ⟨x, ?_⟩
    unfold BuildEscrowTx
    rw [hacc]
    simp only [hE]
    rw [hx]

/-- Witness for the amended C4: concrete runs of both builders — the
8-fractional-digit amount "0.12345678" (parse failure) and the negative
amount "-1" (parses, rejected as negative) both yield the amount error,
while "1.5" is accepted. -/
theorem build_amount_validation_witness :
    ((BuildPaymentTx sdkE { accountID := "GSRC", sequence := 5 }
        "GDEST" "USD" "GISS" "0.12345678").2 =
      .error (.opError .invalidAmount) ∧
     BuildEscrowTx sdkE clientW "GSRC" "GDEST" "USD" "GISS" "0.12345678" =
      ("", some ("failed to build escrow transaction: " ++
        buildErrorMessage (.opError .invalidAmount)))) ∧
    ((BuildPaymentTx sdkE { accountID := "GSRC", sequence := 5 }
        "GDEST" "USD" "GISS" "-1").2 =
      .error (.opError .invalidAmount) ∧
     BuildEscrowTx sdkE clientW "GSRC" "GDEST" "USD" "GISS" "-1" =
      ("", some ("failed to build escrow transaction: " ++
        buildErrorMessage (.opError .invalidAmount)))) ∧
    ((∃ tx, (BuildPaymentTx sdkE { accountID := "GSRC", sequence := 5 }
        "GDEST" "USD" "GISS" "1.5").2 = .ok tx) ∧
     (∃ x, BuildEscrowTx sdkE clientW "GSRC" "GDEST" "USD" "GISS" "1.5" =
        (x, none))) := by
  refine ⟨?_, ?_, ?_⟩
  · exact (build_amount_validation sdkE clientW
      { accountID := "GSRC", sequence := 5 } { accountID := "GSRC", sequence := 7 }
      "GSRC" "GDEST" "USD" "GISS" "0.12345678"
      (by decide) (by decide) (by decide) (by decide) (by decide) (by decide)
      (fun t => ⟨"XDRE", rfl⟩)).1 (by decide)
  · exact (build_amount_validation sdkE clientW
      { accountID := "GSRC", sequence := 5 } { accountID := "GSRC", sequence := 7 }
      "GSRC" "GDEST" "USD" "GISS" "-1"
      (by decide) (by decide) (by decide) (by decide) (by decide) (by decide)
      (fun t => ⟨"XDRE", rfl⟩)).1 (by decide)
  · exact (build_amount_validation sdkE clientW
      { accountID := "GSRC", sequence := 5 } { accountID := "GSRC", sequence := 7 }
      "GSRC" "GDEST" "USD" "GISS" "1.5"
      (by decide) (by decide) (by decide) (by decide) (by decide) (by decide)
      (fun t => ⟨"XDRE", rfl⟩)).2 (by decide)

/-- C5 counterexample: for the non-native code "USDC" with an empty issuer,
the asset-resolution step of both builders produces the asset
`Issued{"USDC", ""}` — it does not fail with an invalid-asset error at
resolution, refuting the claim that resolution fails rather than producing
an asset. -/
theorem asset_resolution_empty_issuer_cx :
    buildPaymentAsset "USDC" "" = Asset.credit "USDC" "" ∧
    submitPaymentAsset "USDC" "" = Asset.credit "USDC" "" := by
  exact ⟨by decide, by decide⟩

/-- C5 amended: a native code resolves to the native asset and a non-native
code resolves to `Issued{code, issuer}` even when the issuer is empty; the
empty-issuer case is rejected only later, by operation validation during
transaction building, which returns an invalid-asset error and no envelope. -/
theorem asset_resolution_amended (sdk : Sdk) (acc : Account)
    (destination assetCode issuer amount : String)
    (hd : sdk.isValidAddress destination = true)
    (hi : sdk.isValidAddress "" = false)
    (hs : ¬ acc.sequence + 1 < 0) :
    ((goToUpper assetCode = "XLM" ∨ assetCode = "") →
      buildPaymentAsset assetCode issuer = Asset.native) ∧
    (¬(goToUpper assetCode = "XLM" ∨ assetCode = "") →
      buildPaymentAsset assetCode issuer = Asset.credit assetCode issuer) ∧
    (¬(goToUpper assetCode = "XLM" ∨ assetCode = "") →
      (BuildPaymentTx sdk acc destination assetCode "" amount).2 =
        .error (.opError .invalidAsset)) := by
  refine ⟨?_, ?_, ?_⟩
  · intro h
    rcases h with h | h <;> simp [buildPaymentAsset, h]
  · intro h
    rw [not_or] at h
    simp [buildPaymentAsset, h.1, h.2]
  · intro h
    rw [not_or] at h
    have hcred : buildPaymentAsset assetCode "" = Asset.credit assetCode "" := by
      simp [buildPaymentAsset, h.1, h.2]
    have hnv : validAsset sdk (Asset.credit assetCode "") = false := by
      simp [validAsset, hi]
    have hval : Payment.validate sdk
        { destination := destination, amount := amount,
          asset := buildPaymentAsset assetCode "" } = some .invalidAsset := by
      unfold Payment.validate
      rw [hcred]
      simp [hd, hnv]
    exact newTransaction_opError_of sdk {
      sourceAccount := acc
      incrementSequenceNum := true
      baseFee := MinBaseFee
      timeBounds := NewInfiniteTimeout
      operations := [{ destination := destination, amount := amount,
                       asset := buildPaymentAsset assetCode "" }] }
      .invalidAsset (by simpa using hs) (by simp [validateOps, hval])

/-- Witness for the amended C5: concrete resolution of "USDC" with a
non-empty and with an empty issuer, and the concrete downstream build
failure. -/
theorem asset_resolution_amended_witness :
    buildPaymentAsset "USDC" "GISS" = Asset.credit "USDC" "GISS" ∧
    (BuildPaymentTx sdkW { accountID := "GSRC", sequence := 5 }
        "GDEST" "USDC" "" "1").2 = .error (.opError .invalidAsset) := by
  have h := asset_resolution_amended sdkW { accountID := "GSRC", sequence := 5 }
    "GDEST" "USDC" "GISS" "1" (by decide) (by decide) (by decide)
  exact ⟨h.2.1 (by decide), h.2.2 (by decide)⟩

/-! ### C7 — submission outcome classification -/

/-- A Horizon environment whose submission always fails at the transport
level with the rendered message "boom". -/
def horizonDownT : Horizon := {
  accountDetail := fun a => .ok { accountID := a, sequence := 7 }
  submitTransaction := fun _ => .failed (.transport "boom") }

/-- A Horizon environment whose submission is always rejected by the ledger
with reason code tx-insufficient-balance and the same rendered message
"boom". -/
def horizonDownR : Horizon := {
  accountDetail := fun a => .ok { accountID := a, sequence := 7 }
  submitTransaction := fun _ => .failed (.rejection "tx_insufficient_balance" "boom") }

/-- C7 counterexample: a retryable transport failure and a fatal ledger
rejection — different failure kinds the claim requires the submitter to
classify apart — produce identical `SubmitPayment` results, a bare wrapped
message string, so no classification into SequenceError, NetworkError or
LedgerRejection is returned (and the rejection's reason code is not carried
in any structured form). -/
theorem submitPayment_unclassified_failure_cx :
    SubmitPaymentUtils sdkReveal
        { horizon := horizonDownT, networkPassphrase := TestNetworkPassphrase }
        "S1" "GDEST" "XLM" "" "1" =
      ("", some "failed to submit transaction: boom") ∧
    SubmitPaymentUtils sdkReveal
        { horizon := horizonDownR, networkPassphrase := TestNetworkPassphrase }
        "S1" "GDEST" "XLM" "" "1" =
      ("", some "failed to submit transaction: boom") ∧
    HorizonFailure.transport "boom" ≠
      HorizonFailure.rejection "tx_insufficient_balance" "boom" := by
  exact ⟨by decide, by decide, by decide⟩

/-- C7 amended: on success the submitter returns the ledger-assigned
transaction hash, and on any submission failure it returns the empty hash
together with the single unclassified error string
"failed to submit transaction: " followed by the underlying rendered message
— the same shape for retryable and fatal failures, with no structured
classification. -/
theorem submitPaymentUtils_wraps_submit_failure (sdk : Sdk) (s : StellarClient)
    (secret destination assetCode issuer amount : String) (kp : KeyPair)
    (acc : Account) (tx stx : Tx)
    (h1 : sdk.parseFull secret = .ok kp)
    (h2 : s.horizon.accountDetail (sdk.address kp) = .ok acc)
    (h3 : (NewTransaction sdk {
        sourceAccount := acc
        incrementSequenceNum := true
        baseFee := MinBaseFee
        timeBounds := NewInfiniteTimeout
        operations := [{ destination := destination, amount := amount,
                         asset := submitPaymentAsset assetCode issuer }] }).2 =
      .ok tx)
    (h4 : Tx.sign sdk TestNetworkPassphrase kp tx = .ok stx) :
    (∀ f, s.horizon.submitTransaction stx = .failed f →
      SubmitPaymentUtils sdk s secret destination assetCode issuer amount =
        ("", some ("failed to submit transaction: " ++ f.message))) ∧
    (∀ hash, s.horizon.submitTransaction stx = .ok hash →
      SubmitPaymentUtils sdk s secret destination assetCode issuer amount =
        (hash, none)) := by
  constructor
  · intro f h5
    unfold SubmitPaymentUtils
    simp only [h1, h2, h3, h4, h5]
  · intro hash h5
    unfold SubmitPaymentUtils
    simp only [h1, h2, h3, h4, h5]

/-- A sample transaction exactly as the concrete C7 run builds it. -/
def txW7 : Tx := {
  sourceID := "GS1", seqNum := 8, fee := 100
  operations := [{ destination := "GDEST", amount := "1", asset := .native }]
  timeBounds := ⟨0, 0⟩, signatures := [] }

/-- `txW7` signed for the test network by the signature-revealing SDK. -/
def stxW7 : Tx := { txW7 with signatures := [TestNetworkPassphrase] }

/-- Witness for the amended C7: a concrete run whose submission fails at the
transport level returns exactly the wrapped message, and a concrete run whose
submission succeeds returns the ledger-assigned hash (here the echoing
Horizon hands back the signature as the hash). -/
theorem submitPaymentUtils_wraps_submit_failure_witness :
    SubmitPaymentUtils sdkReveal
        { horizon := horizonDownT, networkPassphrase := PublicNetworkPassphrase }
        "S1" "GDEST" "XLM" "" "1" =
      ("", some ("failed to submit transaction: " ++
        (HorizonFailure.transport "boom").message)) ∧
    SubmitPaymentUtils sdkReveal
        { horizon := horizonEcho, networkPassphrase := PublicNetworkPassphrase }
        "S1" "GDEST" "XLM" "" "1" =
      (TestNetworkPassphrase, none) := by
  constructor
  · exact (submitPaymentUtils_wraps_submit_failure sdkReveal
      { horizon := horizonDownT, networkPassphrase := PublicNetworkPassphrase }
      "S1" "GDEST" "XLM" "" "1" ⟨"S1"⟩ { accountID := "GS1", sequence := 7 }
      txW7 stxW7
      (by decide) (by decide) (by decide) (by decide)).1
      (.transport "boom") (by decide)
  · exact (submitPaymentUtils_wraps_submit_failure sdkReveal
      { horizon := horizonEcho, networkPassphrase := PublicNetworkPassphrase }
      "S1" "GDEST" "XLM" "" "1" ⟨"S1"⟩ { accountID := "GS1", sequence := 7 }
      txW7 stxW7
      (by decide) (by decide) (by decide) (by decide)).2
      TestNetworkPassphrase (by decide)

/-! ### C8 — escrow conservation -/

/-- A successful deposit preserves the escrow conservation invariant. -/
theorem deposit_inv (paused : Bool) (e e' : Escrow) (amount : Nat)
    (he : EscrowInv e) (h : Escrow.deposit paused e amount = .ok e') :
    EscrowInv e' := by
  obtain ⟨h1, h2⟩ := he
  unfold Escrow.deposit at h
  repeat' split at h
  all_goals first
    | exact (Except.noConfusion h)
    | (injection h with h; subst h; unfold EscrowInv; dsimp only; omega)

/-- A successful release preserves the escrow conservation invariant. -/
theorem release_inv (paused authorized conditionsMet : Bool) (e e' : Escrow)
    (amount : Nat) (he : EscrowInv e)
    (h : Escrow.release paused authorized conditionsMet e amount = .ok e') :
    EscrowInv e' := by
  obtain ⟨h1, h2⟩ := he
  unfold Escrow.release at h
  repeat' split at h
  all_goals first
    | exact (Except.noConfusion h)
    | (injection h with h; subst h; unfold EscrowInv; dsimp only; omega)

/-- A successful refund preserves the escrow conservation invariant. -/
theorem refund_inv (paused authorized : Bool) (e e' : Escrow) (amount : Nat)
    (he : EscrowInv e)
    (h : Escrow.refund paused authorized e amount = .ok e') :
    EscrowInv e' := by
  obtain ⟨h1, h2⟩ := he
  unfold Escrow.refund at h
  repeat' split at h
  all_goals first
    | exact (Except.noConfusion h)
    | (injection h with h; subst h; unfold EscrowInv; dsimp only; omega)

/-- One step (a failed step leaves the escrow unchanged) preserves the
escrow conservation invariant. -/
theorem escrowStep_inv (paused : Bool) (e : Escrow) (op : EscrowOp)
    (he : EscrowInv e) : EscrowInv (escrowStep paused e op) := by
  cases op with
  | deposit amount =>
    simp only [escrowStep]
    rcases hd : Escrow.deposit paused e amount with f | e'
    · exact he
    · exact deposit_inv paused e e' amount he hd
  | release authorized conditionsMet amount =>
    simp only [escrowStep]
    rcases hr : Escrow.release paused authorized conditionsMet e amount with f | e'
    · exact he
    · exact release_inv paused authorized conditionsMet e e' amount he hr
  | refund authorized amount =>
    simp only [escrowStep]
    rcases hr : Escrow.refund paused authorized e amount with f | e'
    · exact he
    · exact refund_inv paused authorized e e' amount he hr

/-- C8: for every escrow satisfying the conservation invariant (as a freshly
created escrow does) and every finite sequence of deposit, release (full or
partial) and refund (full or partial) calls, the invariant — funded never
exceeding total, released plus refunded never exceeding funded — holds after
running any prefix of the sequence; failed calls leave the escrow unchanged. -/
theorem escrow_conservation (paused : Bool) (e : Escrow)
    (ops pre rest : List EscrowOp) (he : EscrowInv e)
    (_hpre : pre ++ rest = ops) : EscrowInv (runEscrow paused e pre) := by
  clear _hpre
  induction pre generalizing e with
  | nil => exact he
  | cons op l ih =>
    exact ih (escrowStep paused e op) (escrowStep_inv paused e op he)

/-- The initial escrow of the witness run: freshly created over 100 units. -/
def escrowW : Escrow := {
  sender := "GA", recipient := "GB", asset := Asset.native
  conditions := "", total := 100, funded := 0, released := 0, refunded := 0
  status := EscrowStatus.created }

/-- Witness for C8: the invariant holds after the spec's scenario-A prefix of
deposit 100, release 40, release 60, then an over-release attempt of 1. -/
theorem escrow_conservation_witness :
    EscrowInv (runEscrow false escrowW
      [EscrowOp.deposit 100, EscrowOp.release true true 40,
       EscrowOp.release true true 60, EscrowOp.release true true 1]) := by
  exact escrow_conservation false escrowW
    [EscrowOp.deposit 100, EscrowOp.release true true 40,
     EscrowOp.release true true 60, EscrowOp.release true true 1]
    [EscrowOp.deposit 100, EscrowOp.release true true 40,
     EscrowOp.release true true 60, EscrowOp.release true true 1]
    [] (by decide) (by simp)

/-! ### C9 — the pending mirror record persists across escrow-build failure -/

/-- C9: whenever `CreateRemittance` passes account validation and the
database insert but `BuildEscrowTx` then fails, the handler returns the
500 error response while the payment mirror record — inserted with status
"pending" before the envelope was built — persists in the database exactly
as written, with no rollback and no status change. -/
theorem createRemittance_pending_persists (ctx : HandlerCtx)
    (db : List PaymentRec) (req : CreateRemittanceRequest) (uid : Nat)
    (e : String)
    (h1 : ctx.validateAccount req.senderAccount = none)
    (h2 : ctx.validateAccount req.recipientAccount = none)
    (h3 : ctx.userID = some uid)
    (h4 : ctx.dbCreateFails = false)
    (h5 : ctx.buildEscrowXDR req.senderAccount req.recipientAccount
      req.assetCode req.assetIssuer (ctx.sprint7 req.amount) = .error e) :
    CreateRemittance ctx db req =
      (db ++ [{ senderID := uid
                senderAccount := req.senderAccount
                recipientAccount := req.recipientAccount
                amount := req.amount
                currency := req.assetCode
                status := "pending"
                conditions := req.conditions
                notes := req.notes }],
       .serverError ("Failed to build Stellar transaction: " ++ e)) := by
  unfold CreateRemittance
  simp only [h1, h2, h3, h4, h5, Bool.false_eq_true, if_false]

/-- A concrete handler environment whose escrow build fails. -/
def ctxW : HandlerCtx := {
  validateAccount := fun _ => none
  dbCreateFails := false
  buildEscrowXDR := fun _ _ _ _ _ => .error "horizon down"
  userID := some 1
  sprint7 := fun _ => "100.5000000" }

/-- A concrete remittance request. -/
def reqW : CreateRemittanceRequest := {
  senderAccount := "GSRC", recipientAccount := "GDST", amount := 3
  assetCode := "USDC", assetIssuer := "GISS", conditions := "cond"
  notes := "" }

/-- Witness for C9: the concrete failing run, starting from an empty
database, ends with the pending record stored and the 500 response. -/
theorem createRemittance_pending_persists_witness :
    CreateRemittance ctxW [] reqW =
      ([{ senderID := 1, senderAccount := "GSRC", recipientAccount := "GDST",
          amount := 3, currency := "USDC", status := "pending",
          conditions := "cond", notes := "" }],
       .serverError ("Failed to build Stellar transaction: " ++ "horizon down")) := by
  exact createRemittance_pending_persists ctxW [] reqW 1 "horizon down"
    rfl rfl rfl rfl rfl

/-! ### C10 — non-HMAC JWTs are rejected -/

/-- C10: for every request whose Authorization header carries a bearer token
that decodes to a JWT declaring a non-HMAC signing method, the middleware
aborts with status 401 and code "InvalidToken" — regardless of the token's
signature validity or expiry — and never sets `userID` or `role` in the
request context (never proceeds). -/
theorem jwtAuthMiddleware_rejects_non_hmac
    (tokens : String → Option TokenDesc) (hdr tokenString : String)
    (t : TokenDesc)
    (hsplit : goSplitSpace hdr = ["Bearer", tokenString])
    (htok : tokens tokenString = some t)
    (hm : t.methodIsHMAC = false) :
    JwtAuthMiddleware tokens hdr = .abort 401 (some "InvalidToken") ∧
    ∀ u r, JwtAuthMiddleware tokens hdr ≠ MwResult.proceed u r := by
  have hne : hdr ≠ "" := by
    intro hempty
    rw [hempty] at hsplit
    rw [show goSplitSpace "" = [""] from by decide] at hsplit
    simp at hsplit
  have hrun : JwtAuthMiddleware tokens hdr = .abort 401 (some "InvalidToken") := by
    unfold JwtAuthMiddleware
    rw [if_neg hne, hsplit]
    simp [htok, parseWithClaims, hm]
  exact ⟨hrun, fun u r hpr => by rw [hrun] at hpr; exact MwResult.noConfusion hpr⟩

/-- A concrete token table: the string "tok" decodes to an unexpired RS256
token (non-HMAC method) whose signature would verify. -/
def tokensW : String → Option TokenDesc := fun s =>
  if s = "tok" then
    some { methodIsHMAC := false, sigValid := true, expired := false,
           userID := 1, role := "admin" }
  else none

/-- Witness for C10: the concrete non-HMAC bearer request is aborted with
401 InvalidToken. -/
theorem jwtAuthMiddleware_rejects_non_hmac_witness :
    JwtAuthMiddleware tokensW "Bearer tok" = .abort 401 (some "InvalidToken") := by
  exact (jwtAuthMiddleware_rejects_non_hmac tokensW "Bearer tok" "tok"
    { methodIsHMAC := false, sigValid := true, expired := false,
      userID := 1, role := "admin" }
    (by decide) (by decide) rfl).1

end GpayRemit
